import Mathlib

/-!
Shallow embedding of the leave-management core of `src/app.py`
(Employee-Leave-Management-Project): the data model (users, leave
requests), the day-count utility `calc_days`, and the request handlers
`register`, `apply_leave`, `review_leave`, `view_leave`.

The sqlite database is modelled as an explicit record of lists; each
Flask handler becomes a pure function from the database (plus the
session and the form inputs) to an outcome and the updated database.
The Flask session is an `Option Nat` (the stored `user_id`), and the
clock `datetime.utcnow().isoformat()` is passed in as an opaque string.
-/

namespace LeaveMgmt

/-- A proleptic Gregorian calendar date, mirroring Python's
`datetime.date` as produced by `dateutil.parser.parse(s).date()`. -/
structure Date where
  year : Nat
  month : Nat
  day : Nat
deriving DecidableEq, Repr

/-- Gregorian leap-year rule, as used by `datetime.date`. -/
def isLeap (y : Nat) : Bool :=
  (y % 4 == 0 && y % 100 != 0) || (y % 400 == 0)

/-- Number of days in the given month of the given year (`datetime.date`
validity bound). -/
def daysInMonth (y m : Nat) : Nat :=
  match m with
  | 2 => if isLeap y then 29 else 28
  | 4 => 30
  | 6 => 30
  | 9 => 30
  | 11 => 30
  | _ => 31

/-- Days in year `y` strictly before month `m` (cumulative month lengths). -/
def daysBeforeMonth (y m : Nat) : Nat :=
  let base : Nat :=
    match m with
    | 1 => 0
    | 2 => 31
    | 3 => 59
    | 4 => 90
    | 5 => 120
    | 6 => 151
    | 7 => 181
    | 8 => 212
    | 9 => 243
    | 10 => 273
    | 11 => 304
    | _ => 334
  if 2 < m && isLeap y then base + 1 else base

/-- The range `datetime.date` accepts: year ≥ 1, month in 1..12,
day in 1..daysInMonth. -/
def Date.okRange (d : Date) : Prop :=
  1 ≤ d.year ∧ 1 ≤ d.month ∧ d.month ≤ 12 ∧ 1 ≤ d.day ∧ d.day ≤ daysInMonth d.year d.month

instance (d : Date) : Decidable d.okRange := by
  unfold Date.okRange; infer_instance

/-- `datetime.date.toordinal`: day number with `0001-01-01 ↦ 1` (rata die).
Python date subtraction `(e - s).days` equals the difference of ordinals. -/
def toOrdinal (d : Date) : Int :=
  let y := d.year - 1
  (Int.ofNat (365 * y + y / 4 + y / 400 + daysBeforeMonth d.year d.month + d.day))
    - Int.ofNat (y / 100)

/-- Mirrors `calc_days(start_iso, end_iso)` in `src/app.py` (lines 63-68):
inclusive day count, clamped at 0.  A date string that
`dateutil.parser.parse` rejects (raising an exception) is modelled as
`none`, and the raised exception as `.error ()`. -/
def calc_days (start_iso end_iso : Option Date) : Except Unit Int :=
  match start_iso, end_iso with
  | some s, some e => .ok (max 0 ((toOrdinal e - toOrdinal s) + 1))
  | _, _ => .error ()

/-- A row of the `users` table.  `password_hash` is omitted: credential
material is owned by the Authenticator collaborator and is never read by
the core logic modelled here. -/
structure User where
  id : Nat
  name : String
  email : String
  role : String
  leave_balance : Int
deriving DecidableEq, Repr

/-- The `status` column of the `leaves` table. -/
inductive Status where
  | Pending
  | Approved
  | Rejected
deriving DecidableEq, Repr

/-- A row of the `leaves` table.  `start_date`/`end_date` hold the parse
result of the stored text (`none` = unparseable text). -/
structure Leave where
  id : Nat
  employee_id : Nat
  start_date : Option Date
  end_date : Option Date
  days : Int
  leave_type : String
  reason : String
  status : Status
  applied_at : String
  reviewed_by : Option Nat
  reviewed_at : Option String
  review_comment : Option String
deriving DecidableEq, Repr

/-- The sqlite database: the two tables plus the autoincrement counters
for their integer primary keys. -/
structure DB where
  users : List User
  leaves : List Leave
  next_user_id : Nat
  next_leave_id : Nat
deriving DecidableEq, Repr

/-- `SELECT * FROM users WHERE id = ?` (first row or `None`). -/
def findUser (db : DB) (uid : Nat) : Option User :=
  db.users.find? (fun u => u.id == uid)

/-- `SELECT * FROM leaves WHERE id = ?` (first row or `None`). -/
def findLeave (db : DB) (lid : Nat) : Option Leave :=
  db.leaves.find? (fun l => l.id == lid)

/-- `current_user()` in `src/app.py` (lines 45-49): reads `user_id` from
the session and fetches the row.  Python's `if not uid` treats the id 0
like an absent session, which the `uid = 0` test mirrors. -/
def current_user (sess : Option Nat) (db : DB) : Option User :=
  match sess with
  | none => none
  | some uid => if uid = 0 then none else findUser db uid

/-- Python `str.strip()` with no argument (strip ASCII whitespace at both
ends), modelled over the character list so it evaluates in the kernel. -/
def stripStr (s : String) : String :=
  ⟨((s.data.dropWhile Char.isWhitespace).reverse.dropWhile Char.isWhitespace).reverse⟩

/-- Python `str.lower()`, modelled over the character list. -/
def lowerStr (s : String) : String :=
  ⟨s.data.map Char.toLower⟩

/-- The observable outcome of a handler: which flash/response the user
sees.  `.fault` marks an unhandled Python exception (e.g. subscripting
`None`), which no handler catches. -/
inductive Outcome where
  | ok
  | accessDenied
  | missingFields
  | emailTaken
  | validationError
  | insufficientBalance (current : Option Int)
  | notFound
  | unknownAction
  | fault
deriving DecidableEq, Repr

/-- Modelled from the spec: `schema.sql` is not under `src/`; the spec says
users are created at registration with a policy-defined default balance
(a starting allotment, a non-negative number of days). -/
def default_leave_balance : Int := 20

/-- `register` POST branch in `src/app.py` (lines 77-102).  The role is
taken from the form with default `'employee'` and stored unvalidated.
Password hashing and `login_user` are out of the modelled state (session
and credential material belong to collaborators). -/
def register (db : DB) (name email password : String) (roleForm : Option String) :
    Outcome × DB :=
  let nm := stripStr name
  let em := lowerStr (stripStr email)
  let role := roleForm.getD "employee"
  if nm = "" || em = "" || password = "" then
    (.missingFields, db)
  else
    match db.users.find? (fun u => u.email == em) with
    | some _ => (.emailTaken, db)
    | none =>
      let u : User :=
        { id := db.next_user_id, name := nm, email := em, role := role,
          leave_balance := default_leave_balance }
      (.ok, { db with users := db.users ++ [u], next_user_id := db.next_user_id + 1 })

/-- `apply_leave` POST branch in `src/app.py` (lines 135-165).  The
inserted row's `status` column is not supplied by the INSERT; modelled
from the spec (`schema.sql` not under `src/`): requests are created
`Pending`. -/
def apply_leave (db : DB) (sess : Option Nat) (start_iso end_iso : Option Date)
    (leave_type reason now : String) : Outcome × DB :=
  match current_user sess db with
  | none => (.accessDenied, db)
  | some user =>
    if user.role != "employee" then
      (.accessDenied, db)
    else
      match calc_days start_iso end_iso with
      | .error _ => (.validationError, db)
      | .ok days =>
        -- check balance: re-read the row, as the source does
        match findUser db user.id with
        | none => (.fault, db)
        | some user_db =>
          if days > user_db.leave_balance then
            (.insufficientBalance (some user_db.leave_balance), db)
          else
            let l : Leave :=
              { id := db.next_leave_id, employee_id := user.id,
                start_date := start_iso, end_date := end_iso, days := days,
                leave_type := leave_type, reason := stripStr reason,
                status := .Pending, applied_at := now,
                reviewed_by := none, reviewed_at := none, review_comment := none }
            (.ok, { db with leaves := db.leaves ++ [l],
                            next_leave_id := db.next_leave_id + 1 })

/-- `UPDATE users SET leave_balance = leave_balance - ? WHERE id = ?`. -/
def debitBalance (users : List User) (uid : Nat) (days : Int) : List User :=
  users.map (fun u =>
    if u.id == uid then { u with leave_balance := u.leave_balance - days } else u)

/-- `UPDATE leaves SET status=?, reviewed_by=?, reviewed_at=?,
review_comment=? WHERE id=?`. -/
def stampReview (leaves : List Leave) (lid : Nat) (st : Status)
    (reviewer : Nat) (now comment : String) : List Leave :=
  leaves.map (fun l =>
    if l.id == lid then
      { l with status := st, reviewed_by := some reviewer,
               reviewed_at := some now, review_comment := some comment }
    else l)

/-- `review_leave(leave_id)` in `src/app.py` (lines 194-226).  Note the
source checks the reviewer's role and that the leave exists, but never
the leave's current status. -/
def review_leave (db : DB) (sess : Option Nat) (leave_id : Nat)
    (action comment now : String) : Outcome × DB :=
  match current_user sess db with
  | none => (.accessDenied, db)
  | some user =>
    if user.role != "hr" then
      (.accessDenied, db)
    else
      match findLeave db leave_id with
      | none => (.notFound, db)
      | some l =>
        if action == "approve" then
          match findUser db l.employee_id with
          | none => (.fault, db)  -- emp['leave_balance'] with emp = None
          | some emp =>
            if emp.leave_balance < l.days then
              (.insufficientBalance none, db)
            else
              (.ok, { db with
                        users := debitBalance db.users emp.id l.days,
                        leaves := stampReview db.leaves leave_id .Approved
                                    user.id now (stripStr comment) })
        else if action == "reject" then
          (.ok, { db with
                    leaves := stampReview db.leaves leave_id .Rejected
                                user.id now (stripStr comment) })
        else
          (.unknownAction, db)

/-- `view_leave(leave_id)` in `src/app.py` (lines 181-191).  The handler
fetches `current_user()` without a login guard and subscripts it
(`user['role']`) after the not-found check: with no session and an
existing leave this raises `TypeError` (modelled `.fault`). -/
def view_leave (db : DB) (sess : Option Nat) (leave_id : Nat) : Outcome :=
  let user := current_user sess db
  match findLeave db leave_id with
  | none => .notFound
  | some l =>
    match user with
    | none => .fault  -- user['role'] with user = None
    | some u =>
      if u.role != "hr" && u.id != l.employee_id then .accessDenied else .ok

/-- Balance of the user with the given id, if any. -/
def getBalance (db : DB) (uid : Nat) : Option Int :=
  (findUser db uid).map User.leave_balance

/-- Every stored user has a non-negative leave balance. -/
def balancesNonneg (db : DB) : Prop :=
  ∀ u ∈ db.users, 0 ≤ u.leave_balance

/-- The users table is keyed by `id` (sqlite integer primary key):
no two rows share an id. -/
def usersKeyed (db : DB) : Prop :=
  (db.users.map User.id).Nodup

instance (db : DB) : Decidable (balancesNonneg db) := by
  unfold balancesNonneg; infer_instance

instance (db : DB) : Decidable (usersKeyed db) := by
  unfold usersKeyed; infer_instance

/-! Sample databases used as concrete inputs. -/

/-- An hr user (id 1), an employee with balance 5 (id 2), and a leave
request of 5 days that has already been Approved and stamped. -/
def dbTwice : DB :=
  { users := [⟨1, "Hana", "hana@x.com", "hr", 0⟩,
              ⟨2, "Eli", "eli@x.com", "employee", 5⟩],
    leaves := [⟨10, 2, some ⟨2024, 3, 1⟩, some ⟨2024, 3, 5⟩, 5, "Vacation", "",
                Status.Approved, "t0", some 1, some "t1", some "ok"⟩],
    next_user_id := 3, next_leave_id := 11 }

/-- A single employee (id 2) with balance 10 and no leave requests. -/
def dbFresh : DB :=
  { users := [⟨2, "Eli", "eli@x.com", "employee", 10⟩],
    leaves := [], next_user_id := 3, next_leave_id := 1 }

/-- The empty database. -/
def dbEmpty : DB :=
  { users := [], leaves := [], next_user_id := 1, next_leave_id := 1 }

/-- An hr user (id 1), an employee with balance 10 (id 2), and a Pending
5-day leave request (id 10). -/
def dbPending : DB :=
  { users := [⟨1, "Hana", "hana@x.com", "hr", 0⟩,
              ⟨2, "Eli", "eli@x.com", "employee", 10⟩],
    leaves := [⟨10, 2, some ⟨2024, 3, 1⟩, some ⟨2024, 3, 5⟩, 5, "Vacation", "",
                Status.Pending, "t0", none, none, none⟩],
    next_user_id := 3, next_leave_id := 11 }

/-- An hr user (id 1), an employee with balance 3 (id 2), and a Pending
5-day leave request (id 10) that exceeds the balance. -/
def dbShort : DB :=
  { users := [⟨1, "Hana", "hana@x.com", "hr", 0⟩,
              ⟨2, "Eli", "eli@x.com", "employee", 3⟩],
    leaves := [⟨10, 2, some ⟨2024, 3, 1⟩, some ⟨2024, 3, 5⟩, 5, "Vacation", "",
                Status.Pending, "t0", none, none, none⟩],
    next_user_id := 3, next_leave_id := 11 }

/-! Helper lemmas about the table operations. -/

/-- `find?` commutes with a map whose function preserves the predicate. -/
theorem find?_map_pres {α : Type} (f : α → α) (p : α → Bool) (l : List α)
    (hp : ∀ a, p (f a) = p a) : (l.map f).find? p = (l.find? p).map f := by
  rw [List.find?_map]
  have hcomp : p ∘ f = p := funext hp
  rw [hcomp]

/-- Looking a user up after a balance debit: the debit touches no id. -/
theorem findUser_debit (users : List User) (uid tid : Nat) (days : Int) :
    (debitBalance users uid days).find? (fun u => u.id == tid)
      = (users.find? (fun u => u.id == tid)).map
          (fun u => if u.id == uid then
              { u with leave_balance := u.leave_balance - days } else u) := by
  unfold debitBalance
  apply find?_map_pres
  intro a
  by_cases h : (a.id == uid) = true <;> simp [h]

/-- Looking a leave up after a review stamp: the stamp touches no id. -/
theorem findLeave_stamp (leaves : List Leave) (lid tid : Nat) (st : Status)
    (reviewer : Nat) (now comment : String) :
    (stampReview leaves lid st reviewer now comment).find? (fun l => l.id == tid)
      = (leaves.find? (fun l => l.id == tid)).map
          (fun l => if l.id == lid then
              { l with status := st, reviewed_by := some reviewer,
                       reviewed_at := some now, review_comment := some comment }
            else l) := by
  unfold stampReview
  apply find?_map_pres
  intro a
  by_cases h : (a.id == lid) = true <;> simp [h]

/-- A logged-in user is exactly what `findUser` returns for its own id. -/
theorem findUser_of_current (db : DB) (sess : Option Nat) (u : User)
    (h : current_user sess db = some u) : findUser db u.id = some u := by
  cases sess with
  | none => simp [current_user] at h
  | some uid =>
    simp only [current_user] at h
    by_cases h0 : uid = 0
    · rw [if_pos h0] at h; cases h
    · rw [if_neg h0] at h
      unfold findUser at h
      have hid := List.find?_some h
      have hu : u.id = uid := by simpa using hid
      unfold findUser
      rw [hu]
      exact h

/-- With `usersKeyed`, two stored users sharing an id are the same row. -/
theorem keyed_unique (db : DB) (hkey : usersKeyed db) (u v : User)
    (hu : u ∈ db.users) (hv : v ∈ db.users) (h : u.id = v.id) : u = v :=
  List.inj_on_of_nodup_map hkey hu hv h

/-- `apply_leave` never writes to the users table. -/
theorem apply_leave_users_eq (db : DB) (sess : Option Nat)
    (start_iso end_iso : Option Date) (leave_type reason now : String) :
    ((apply_leave db sess start_iso end_iso leave_type reason now).2).users
      = db.users := by
  unfold apply_leave
  split
  · rfl
  · split
    · rfl
    · split
      · rfl
      · split
        · rfl
        · split
          · rfl
          · rfl

/-- Every user stored after a `review_leave` call has a non-negative
balance, provided all balances were non-negative before and the users
table is keyed by id. -/
theorem review_leave_nonneg (db : DB) (sess : Option Nat) (lid : Nat)
    (action comment now : String)
    (hkey : usersKeyed db) (hnn : balancesNonneg db) :
    balancesNonneg ((review_leave db sess lid action comment now).2) := by
  unfold review_leave
  split
  · exact hnn
  · split
    · exact hnn
    · split
      · exact hnn
      · next l hfl =>
        split
        · split
          · exact hnn
          · next emp hfu =>
            split
            · exact hnn
            · next hbal =>
              intro v hv
              unfold debitBalance at hv
              rw [List.mem_map] at hv
              obtain ⟨w, hw, rfl⟩ := hv
              by_cases hid : (w.id == emp.id) = true
              · have hmem : emp ∈ db.users := List.mem_of_find?_eq_some hfu
                have hweq : w = emp :=
                  keyed_unique db hkey w emp hw hmem (by simpa using hid)
                subst hweq
                rw [if_pos hid]
                have : ¬ (w.leave_balance < l.days) := hbal
                simp only []
                omega
              · rw [if_neg hid]
                exact hnn w hw
        · split
          · exact hnn
          · exact hnn

/-- Closed form of the approve-success branch of `review_leave`. -/
theorem review_leave_approve_eq (db : DB) (sess : Option Nat) (lid : Nat)
    (comment now : String) (u : User) (l : Leave) (emp : User)
    (h1 : current_user sess db = some u) (h2 : u.role = "hr")
    (h3 : findLeave db lid = some l)
    (h5 : findUser db l.employee_id = some emp)
    (hbal : ¬ (emp.leave_balance < l.days)) :
    review_leave db sess lid "approve" comment now =
      (Outcome.ok,
       { db with users := debitBalance db.users emp.id l.days,
                 leaves := stampReview db.leaves lid Status.Approved
                             u.id now (stripStr comment) }) := by
  simp [review_leave, h1, h2, h3, h5, hbal]

/-! Claim theorems. -/

/-- C1: the claim says a review action on a non-Pending request fails
with IllegalTransition and changes no state.  The code has no status
guard: on `dbTwice`, whose only request is already Approved (reviewed at
"t1" with comment "ok") and whose employee has balance 5, a second
approve succeeds, debits the balance again (5 ↦ 0), and overwrites
reviewed_at and review_comment. -/
theorem second_review_double_debits :
    (review_leave dbTwice (some 1) 10 "approve" "again" "t2").1 = Outcome.ok ∧
    getBalance (review_leave dbTwice (some 1) 10 "approve" "again" "t2").2 2
      = some 0 ∧
    findLeave (review_leave dbTwice (some 1) 10 "approve" "again" "t2").2 10 =
      some ⟨10, 2, some ⟨2024, 3, 1⟩, some ⟨2024, 3, 5⟩, 5, "Vacation", "",
            Status.Approved, "t0", some 1, some "t2", some "again"⟩ :=
  ⟨rfl, rfl, rfl⟩

/-- C2: an approve on a Pending request whose employee balance is below
the request's days returns the insufficient-balance outcome and leaves
the whole database (request fields, status, balance) unchanged. -/
theorem approve_insufficient_aborts (db : DB) (sess : Option Nat) (lid : Nat)
    (comment now : String) (u : User) (l : Leave) (emp : User)
    (h1 : current_user sess db = some u) (h2 : u.role = "hr")
    (h3 : findLeave db lid = some l) (h4 : l.status = Status.Pending)
    (h5 : findUser db l.employee_id = some emp)
    (h6 : emp.leave_balance < l.days) :
    review_leave db sess lid "approve" comment now
      = (Outcome.insufficientBalance none, db) := by
  simp [review_leave, h1, h2, h3, h5, h6]

theorem approve_insufficient_aborts_witness :
    review_leave dbShort (some 1) 10 "approve" "no" "t1"
      = (Outcome.insufficientBalance none, dbShort) :=
  approve_insufficient_aborts dbShort (some 1) 10 "no" "t1"
    ⟨1, "Hana", "hana@x.com", "hr", 0⟩
    ⟨10, 2, some ⟨2024, 3, 1⟩, some ⟨2024, 3, 5⟩, 5, "Vacation", "",
     Status.Pending, "t0", none, none, none⟩
    ⟨2, "Eli", "eli@x.com", "employee", 3⟩
    rfl rfl rfl rfl rfl (by decide)

/-- C3: the claim says a submission whose computed day count is ≤ 0 is
rejected with a ValidationError and nothing is persisted.  On `dbFresh`
(employee 2, balance 10) a submission with end before start computes
days = 0, passes the balance check (0 > 10 is false), and is persisted
as a 0-day Pending request. -/
theorem zero_day_submission_persisted :
    (apply_leave dbFresh (some 2) (some ⟨2024, 1, 3⟩) (some ⟨2024, 1, 1⟩)
        "Vacation" "" "t0").1 = Outcome.ok ∧
    findLeave (apply_leave dbFresh (some 2) (some ⟨2024, 1, 3⟩)
        (some ⟨2024, 1, 1⟩) "Vacation" "" "t0").2 1 =
      some ⟨1, 2, some ⟨2024, 1, 3⟩, some ⟨2024, 1, 1⟩, 0, "Vacation", "",
            Status.Pending, "t0", none, none, none⟩ :=
  ⟨rfl, rfl⟩

/-- C4: starting from a database in which every user's balance is
non-negative (and the users table is keyed by id), each workflow
operation — submit, and review with any action (approve, reject, or
unknown) — preserves non-negativity of every user's balance. -/
theorem workflow_preserves_nonneg (db : DB)
    (hkey : usersKeyed db) (hnn : balancesNonneg db)
    (sess rsess : Option Nat) (start_iso end_iso : Option Date)
    (leave_type reason now : String) (lid : Nat) (action comment : String) :
    balancesNonneg ((apply_leave db sess start_iso end_iso
        leave_type reason now).2) ∧
    balancesNonneg ((review_leave db rsess lid action comment now).2) := by
  constructor
  · intro v hv
    rw [apply_leave_users_eq] at hv
    exact hnn v hv
  · exact review_leave_nonneg db rsess lid action comment now hkey hnn

theorem workflow_preserves_nonneg_witness :
    balancesNonneg ((apply_leave dbPending (some 2) (some ⟨2024, 4, 1⟩)
        (some ⟨2024, 4, 2⟩) "Vacation" "" "t1").2) ∧
    balancesNonneg ((review_leave dbPending (some 1) 10 "approve" "" "t1").2) :=
  workflow_preserves_nonneg dbPending (by decide) (by decide)
    (some 2) (some 1) (some ⟨2024, 4, 1⟩) (some ⟨2024, 4, 2⟩) "Vacation" "" "t1"
    10 "approve" ""

/-- C5: a submission whose computed days exceed the employee's current
balance (re-read from the users table) fails with an
insufficient-balance outcome carrying that balance, and the database —
in particular the leaves table and the balance — is unchanged. -/
theorem submit_insufficient_rejected (db : DB) (sess : Option Nat)
    (start_iso end_iso : Option Date) (leave_type reason now : String)
    (u : User) (d : Int)
    (h1 : current_user sess db = some u) (h2 : u.role = "employee")
    (h3 : calc_days start_iso end_iso = Except.ok d)
    (h4 : u.leave_balance < d) :
    apply_leave db sess start_iso end_iso leave_type reason now
      = (Outcome.insufficientBalance (some u.leave_balance), db) := by
  have hfu : findUser db u.id = some u := findUser_of_current db sess u h1
  have hgt : d > u.leave_balance := h4
  simp [apply_leave, h1, h2, h3, hfu, hgt]

theorem submit_insufficient_rejected_witness :
    apply_leave dbShort (some 2) (some ⟨2024, 3, 1⟩) (some ⟨2024, 3, 5⟩)
        "Vacation" "" "t1"
      = (Outcome.insufficientBalance (some 3), dbShort) :=
  submit_insufficient_rejected dbShort (some 2) (some ⟨2024, 3, 1⟩)
    (some ⟨2024, 3, 5⟩) "Vacation" "" "t1"
    ⟨2, "Eli", "eli@x.com", "employee", 3⟩ 5
    rfl rfl rfl (by decide)

/-- C6: a successful approve on a Pending request whose employee balance
covers the request's days returns the success outcome, debits exactly
the request's days from the employee's balance, sets the status to
Approved, and stamps reviewer, reviewed_at, and review_comment. -/
theorem approve_success_debits_and_stamps (db : DB) (sess : Option Nat)
    (lid : Nat) (comment now : String) (u : User) (l : Leave) (emp : User)
    (h1 : current_user sess db = some u) (h2 : u.role = "hr")
    (h3 : findLeave db lid = some l) (h4 : l.status = Status.Pending)
    (h5 : findUser db l.employee_id = some emp)
    (h6 : l.days ≤ emp.leave_balance) :
    (review_leave db sess lid "approve" comment now).1 = Outcome.ok ∧
    getBalance (review_leave db sess lid "approve" comment now).2 l.employee_id
      = some (emp.leave_balance - l.days) ∧
    findLeave (review_leave db sess lid "approve" comment now).2 lid
      = some { l with status := Status.Approved, reviewed_by := some u.id,
                      reviewed_at := some now,
                      review_comment := some (stripStr comment) } := by
  have hbal : ¬ (emp.leave_balance < l.days) := not_lt.2 h6
  rw [review_leave_approve_eq db sess lid comment now u l emp h1 h2 h3 h5 hbal]
  refine ⟨rfl, ?_, ?_⟩
  · unfold getBalance findUser
    rw [findUser_debit]
    unfold findUser at h5
    rw [h5]
    simp
  · unfold findLeave
    rw [findLeave_stamp]
    unfold findLeave at h3
    rw [h3]
    have hl : l.id = lid := by simpa using (List.find?_some h3)
    simp [hl]

theorem approve_success_debits_and_stamps_witness :
    (review_leave dbPending (some 1) 10 "approve" "ok" "t1").1 = Outcome.ok ∧
    getBalance (review_leave dbPending (some 1) 10 "approve" "ok" "t1").2 2
      = some 5 ∧
    findLeave (review_leave dbPending (some 1) 10 "approve" "ok" "t1").2 10 =
      some ⟨10, 2, some ⟨2024, 3, 1⟩, some ⟨2024, 3, 5⟩, 5, "Vacation", "",
            Status.Approved, "t0", some 1, some "t1", some "ok"⟩ :=
  approve_success_debits_and_stamps dbPending (some 1) 10 "ok" "t1"
    ⟨1, "Hana", "hana@x.com", "hr", 0⟩
    ⟨10, 2, some ⟨2024, 3, 1⟩, some ⟨2024, 3, 5⟩, 5, "Vacation", "",
     Status.Pending, "t0", none, none, none⟩
    ⟨2, "Eli", "eli@x.com", "employee", 10⟩
    rfl rfl rfl rfl rfl (by decide)

/-- C7: on two parseable dates, `calc_days` returns the inclusive day
count (ordinal difference plus one) when start ≤ end, and 0 (the
defensive clamp) when end < start. -/
theorem calc_days_contract (s e : Date) (hs : s.okRange) (he : e.okRange) :
    (toOrdinal s ≤ toOrdinal e →
        calc_days (some s) (some e)
          = Except.ok (toOrdinal e - toOrdinal s + 1)) ∧
    (toOrdinal e < toOrdinal s →
        calc_days (some s) (some e) = Except.ok 0) := by
  constructor
  · intro h
    simp only [calc_days]
    rw [max_eq_right (by omega)]
  · intro h
    simp only [calc_days]
    rw [max_eq_left (by omega)]

theorem calc_days_contract_witness :
    calc_days (some ⟨2024, 1, 1⟩) (some ⟨2024, 1, 3⟩) = Except.ok 3 ∧
    calc_days (some ⟨2024, 1, 3⟩) (some ⟨2024, 1, 1⟩) = Except.ok 0 := by
  constructor
  · have h := (calc_days_contract ⟨2024, 1, 1⟩ ⟨2024, 1, 3⟩
        (by decide) (by decide)).1 (by decide)
    rw [h]
    rfl
  · exact (calc_days_contract ⟨2024, 1, 3⟩ ⟨2024, 1, 1⟩
        (by decide) (by decide)).2 (by decide)

/-- C8: the claim says a stored user's role is always 'employee' or
'hr'.  `register` stores the form-supplied role unvalidated: on the
empty database, registering with role 'admin' persists a user whose
role is neither 'employee' nor 'hr'. -/
theorem register_persists_foreign_role :
    ((register dbEmpty "Mallory" "mallory@example.com" "secret"
        (some "admin")).2).users
      = [⟨1, "Mallory", "mallory@example.com", "admin",
          default_leave_balance⟩] ∧
    ¬ ("admin" = "employee" ∨ "admin" = "hr") :=
  ⟨rfl, by decide⟩

/-- C10: a request for an existing leave record with no logged-in
session makes `view_leave` dereference the absent user (`user['role']`
on `None`), an unhandled fault rather than an access-denied outcome. -/
theorem view_leave_no_session_faults (db : DB) (lid : Nat) (l : Leave)
    (h : findLeave db lid = some l) :
    view_leave db none lid = Outcome.fault := by
  simp [view_leave, current_user, h]

theorem view_leave_no_session_faults_witness :
    view_leave dbTwice none 10 = Outcome.fault :=
  view_leave_no_session_faults dbTwice 10
    ⟨10, 2, some ⟨2024, 3, 1⟩, some ⟨2024, 3, 5⟩, 5, "Vacation", "",
     Status.Approved, "t0", some 1, some "t1", some "ok"⟩
    rfl

end LeaveMgmt
